import Mathlib

set_option maxHeartbeats 1000000

namespace Mltrack

/-! Shallow embedding of the mltrack training-orchestration and run-aggregation
subsystem: the model registry (src/mltrack/models.py), the dataset registry
(src/mltrack/loaders.py), the pipeline executor (src/mltrack/pipelines.py) and
the run aggregator (streamlit/data.py, streamlit/app.py).  Python dicts are
association lists looked up by first occurrence; mlflow's tracking backend is
an explicit state threaded through the executor; fallible calls return Except. -/

/-- Hyperparameter values appearing in the model registry and in overrides. -/
inductive PValue where
  | int (i : Int)
  | str (s : String)
deriving DecidableEq

/-- Python keyword/dict arguments: an association list with unique keys. -/
abbrev Params := List (String × PValue)

/-- Python dict construction by double unpacking, mirroring
`params = {**default_params, **kwargs}` (models.py line 51): the first dict's keys
in order, each taking the second dict's value when that key is present there,
followed by the second dict's new keys in their own order. -/
def dictMerge (a b : Params) : Params :=
  a.map (fun p => (p.1, ((b.lookup p.1).getD p.2))) ++
    b.filter (fun p => (a.lookup p.1).isNone)

/-- The three scikit-learn classifier classes registered in models.py.  Each is an
external component exposing fit and predict (sklearn ClassifierMixin). -/
inductive ModelClass where
  | logisticRegression
  | randomForestClassifier
  | svc
deriving DecidableEq

/-- The MODELS registry of models.py lines 12-25: name to (class, default params). -/
def MODELS : List (String × ModelClass × Params) :=
  [("logistic_regression",
     (.logisticRegression, [("max_iter", .int 200), ("random_state", .int 42)])),
   ("random_forest",
     (.randomForestClassifier, [("n_estimators", .int 100), ("random_state", .int 42)])),
   ("svm_rbf",
     (.svc, [("kernel", .str "rbf"), ("random_state", .int 42)]))]

/-- A constructed classifier instance: the class it was built from and the effective
constructor parameters.  Attribute access (e.g. n_estimators) is parameter lookup. -/
structure Classifier where
  cls : ModelClass
  params : Params
deriving DecidableEq

/-- Embeds list_models (models.py lines 56-62): the registry keys in insertion order. -/
def list_models : List String := MODELS.map (fun p => p.1)

/-- An ASCII single-quote character, as used by Python's repr of strings. -/
def sq : String := String.singleton (Char.ofNat 39)

/-- Python repr of a string (single-quoted). -/
def pyStrRepr (s : String) : String := sq ++ s ++ sq

/-- Python str of a list of strings, as interpolated into f-strings. -/
def pyListRepr (xs : List String) : String :=
  "[" ++ String.intercalate ", " (xs.map pyStrRepr) ++ "]"

/-- The ValueError message raised by get_model for an unregistered name
(models.py line 46). -/
def unknownModelMsg (name : String) : String :=
  "Unknown model: " ++ name ++ ". Available: " ++ pyListRepr list_models

/-- Embeds get_model (models.py lines 28-53): registry lookup, then construction
from the shallow merge of the registered defaults with the caller's overrides.
An unregistered name raises ValueError listing the available names. -/
def get_model (name : String) (kwargs : Params) : Except String Classifier :=
  match MODELS.lookup name with
  | none => .error (unknownModelMsg name)
  | some cd => .ok { cls := cd.1, params := dictMerge cd.2 kwargs }

/-- Errors surfaced by the executor: Python ValueError (unknown loader/model, bad
test_size), an exception raised by an external fit call, and mlflow client errors. -/
inductive PyError where
  | valueError (msg : String)
  | fitError (model : String)
  | mlflowError (msg : String)
deriving DecidableEq

/-- The dataset loaders of loaders.py.  Only IrisLoader is registered. -/
inductive DataLoader where
  | irisLoader
deriving DecidableEq

/-- Modelled from the spec: the Iris data values come from sklearn.datasets
(external to this repository); the spec fixes only the shape used by the claims —
150 samples in 3 equal classes, 4 named features.  Feature rows are represented
by their sample index. -/
def irisData : List Nat × List Nat × List String × List String :=
  (List.range 150,
   (List.range 150).map (fun i => i / 50),
   ["sepal length (cm)", "sepal width (cm)", "petal length (cm)", "petal width (cm)"],
   ["setosa", "versicolor", "virginica"])

/-- Embeds DataLoader.load (loaders.py lines 30-45): the Iris loader returns
(X, y, feature_names, target_names). -/
def DataLoader.load : DataLoader → List Nat × List Nat × List String × List String
  | .irisLoader => irisData

/-- The loader registry of get_loader (loaders.py lines 60-62). -/
def loaders : List (String × DataLoader) := [("iris", .irisLoader)]

/-- The ValueError message raised by get_loader for an unregistered name
(loaders.py line 65). -/
def unknownLoaderMsg (name : String) : String :=
  "Unknown loader: " ++ name ++ ". Available: " ++ pyListRepr (loaders.map (fun p => p.1))

/-- Embeds get_loader (loaders.py lines 48-67): registry lookup raising ValueError
with the available names when the name is unknown. -/
def get_loader (name : String) : Except PyError DataLoader :=
  match loaders.lookup name with
  | none => .error (.valueError (unknownLoaderMsg name))
  | some L => .ok L

/-- Modelled from the spec: sklearn's train_test_split is external to this
repository; the spec specifies its interface only — the split is a deterministic
function of the input and the seed, test size is the ceiling of n times the test
fraction, and a fraction outside (0, 1) is rejected.  The seed-determined
permutation is modelled as a rotation, which realises those interface properties. -/
def seededShuffle {α : Type} (seed : Int) (xs : List α) : List α :=
  let k := (seed % ((xs.length : Int) + 1)).toNat
  xs.drop k ++ xs.take k

/-- Modelled from the spec: train_test_split(X, y, test_size, random_state) as
called by run_pipeline (pipelines.py lines 110-115).  Returns
(X_train, X_test, y_train, y_test); X and y are split by one shared shuffle. -/
def train_test_split (X y : List Nat) (test_size : Rat) (random_state : Int) :
    Except PyError (List Nat × List Nat × List Nat × List Nat) :=
  if test_size ≤ 0 ∨ 1 ≤ test_size then
    .error (.valueError "test_size should be in the range (0, 1)")
  else
    let pairs := seededShuffle random_state (X.zip y)
    let nTest := (test_size * (X.length : Rat)).ceil.toNat
    let te := pairs.take nTest
    let tr := pairs.drop nTest
    .ok (tr.map Prod.fst, te.map Prod.fst, tr.map Prod.snd, te.map Prod.snd)

/-- One run record held by the mlflow tracking backend on the writing side:
its name, whether it ended with FINISHED status, and the metrics logged to it. -/
structure TrackRun where
  run_name : String
  finished : Bool
  metrics : List (String × Rat)
deriving DecidableEq

/-- The tracking backend's state as seen by the executor: the current experiment,
whether sklearn autologging is enabled, the active (open) run if any, and the
runs already recorded, in completion order. -/
structure MlflowState where
  experiment : Option String
  autolog : Bool
  active : Option TrackRun
  completed : List TrackRun
deriving DecidableEq

/-- Session events emitted by the executor, for stating sequencing properties. -/
inductive SEvent where
  | openSession (name : String)
  | closeSession
deriving DecidableEq

/-- Result of a fallible executor step: its value or exception, the backend state
it leaves, and the session events it emitted. -/
structure Out (α : Type) where
  result : Except PyError α
  state : MlflowState
  events : List SEvent

/-- The dict returned by train_single_model (pipelines.py lines 72-75). -/
structure TrainResult where
  model_name : String
  training_time : Rat
deriving DecidableEq

/-- External nondeterminism of one pipeline invocation: whether a model's fit call
raises, and the wall-clock duration measured around it (time.time differences). -/
structure World where
  fitRaises : String → Bool
  fitTime : String → Rat

/-- Embeds mlflow.log_metric (pipelines.py line 66): appends to the active run. -/
def logMetric (st : MlflowState) (key : String) (v : Rat) : MlflowState :=
  match st.active with
  | none => st
  | some r => { st with active := some { r with metrics := r.metrics ++ [(key, v)] } }

/-- Ending the active run when the mlflow.start_run context manager exits: the run
is recorded with FINISHED status on normal exit and FAILED on an exception. -/
def endRun (st : MlflowState) (ok : Bool) : MlflowState :=
  match st.active with
  | none => st
  | some r =>
    { st with active := none, completed := st.completed ++ [{ r with finished := ok }] }

/-- Embeds train_single_model (pipelines.py lines 34-75).  The with-statement
around mlflow.start_run opens a run named after the model before the body and ends
the run on every exit path, re-raising any body exception; starting a run while
one is active is an mlflow client error.  get_model and fit happen inside the
body; time.time and fit are external, supplied by the World oracle. -/
def train_single_model (w : World) (model_name : String) (st : MlflowState) :
    Out TrainResult :=
  match st.active with
  | some _ => { result := .error (.mlflowError "Run already active"), state := st, events := [] }
  | none =>
    let stOpen : MlflowState :=
      { st with active := some { run_name := model_name, finished := false, metrics := [] } }
    match get_model model_name [] with
    | .error msg =>
        { result := .error (.valueError msg), state := endRun stOpen false,
          events := [.openSession model_name, .closeSession] }
    | .ok _ =>
      if w.fitRaises model_name then
        { result := .error (.fitError model_name), state := endRun stOpen false,
          events := [.openSession model_name, .closeSession] }
      else
        let t := w.fitTime model_name
        { result := .ok { model_name := model_name, training_time := t },
          state := endRun (logMetric stOpen "training_time" t) true,
          events := [.openSession model_name, .closeSession] }

/-- The model loop of run_pipeline (pipelines.py lines 120-129): train each model
in order, appending its result; an exception aborts the remaining models. -/
def trainAll (w : World) (names : List String) (st : MlflowState) :
    Out (List TrainResult) :=
  match names with
  | [] => { result := .ok [], state := st, events := [] }
  | n :: rest =>
    let o := train_single_model w n st
    match o.result with
    | .error e => { result := .error e, state := o.state, events := o.events }
    | .ok r =>
      let o2 := trainAll w rest o.state
      { result := o2.result.map (fun rs => r :: rs), state := o2.state,
        events := o.events ++ o2.events }

/-- The pipeline configuration dataclass TrainingPipeline (pipelines.py lines 17-31). -/
structure TrainingPipeline where
  loader_name : String
  model_names : List String
  test_size : Rat := 1/5
  random_state : Int := 42

/-- Embeds run_pipeline (pipelines.py lines 78-134): set the experiment, enable
autologging, resolve and load the dataset (ValueError is fatal and propagates),
split it, then train every configured model in order. -/
def run_pipeline (w : World) (p : TrainingPipeline) (experiment_name : String)
    (st : MlflowState) : Out (List TrainResult) :=
  let st1 : MlflowState := { st with experiment := some experiment_name, autolog := true }
  match get_loader p.loader_name with
  | .error e => { result := .error e, state := st1, events := [] }
  | .ok L =>
    let d := L.load
    match train_test_split d.1 d.2.1 p.test_size p.random_state with
    | .error e => { result := .error e, state := st1, events := [] }
    | .ok _ => trainAll w p.model_names st1

/-- A run as read back from the tracking backend: run.info of data.py. -/
structure RunInfo where
  run_id : String
  run_name : String
  start_time : Int
deriving DecidableEq

/-- A run as read back from the tracking backend: run.data of data.py. -/
structure RunData where
  metrics : List (String × Rat)
  params : List (String × String)
deriving DecidableEq

/-- A recorded run as returned by the backend's query API (read-only here). -/
structure Run where
  info : RunInfo
  data : RunData
deriving DecidableEq

/-- One row of the comparison table built by parse_runs_to_df / fetch_runs. -/
structure ComparisonRow where
  run_name : String
  model_type : String
  accuracy : Rat
  f1_score : Rat
  training_time : Rat
  run_id : String
  start_time : Int
deriving DecidableEq

/-- The per-run dict built by parse_runs_to_df (app.py lines 54-64) and fetch_runs
(data.py lines 52-62).  pd.to_datetime(ms) is an injective unit conversion of the
start timestamp and is kept in milliseconds. -/
def rowOfRun (run : Run) : ComparisonRow :=
  { run_name := if run.info.run_name.isEmpty then run.info.run_id.take 8
                else run.info.run_name,
    model_type := (run.data.params.lookup "model_type").getD "Unknown",
    accuracy := (run.data.metrics.lookup "training_score").getD
                  ((run.data.metrics.lookup "accuracy").getD 0),
    f1_score := (run.data.metrics.lookup "training_f1_score").getD 0,
    training_time := (run.data.metrics.lookup "training_time").getD 0,
    run_id := run.info.run_id,
    start_time := run.info.start_time }

/-- Embeds the table-building loop of parse_runs_to_df (app.py lines 48-65): one
row appended per fetched run, in order. -/
def parse_runs_to_df (runs : List Run) : List ComparisonRow := runs.map rowOfRun

/-- An experiment known to the tracking backend, with its runs in the order the
backend returns them from search_runs. -/
structure Experiment where
  experiment_id : String
  runs : List Run
deriving DecidableEq

/-- The tracking backend's store on the reading side: its experiments in
enumeration (search_experiments) order. -/
structure Backend where
  experiments : List Experiment
deriving DecidableEq

/-- Embeds MlflowClient.search_runs(experiment_ids=ids): the runs of every
experiment whose id is listed, in backend order. -/
def search_runs (b : Backend) (ids : List String) : List Run :=
  ((b.experiments.filter (fun e => ids.contains e.experiment_id)).map
    Experiment.runs).flatten

/-- Embeds the fetch stage of fetch_runs (data.py lines 34-45): with no experiment
id, iterate search_experiments and extend with each experiment's runs; with an id,
query that one experiment. -/
def fetch_runs_list (b : Backend) (experiment_id : Option String) : List Run :=
  match experiment_id with
  | none => (b.experiments.map (fun e => search_runs b [e.experiment_id])).flatten
  | some i => search_runs b [i]

/-- Embeds fetch_runs (data.py lines 18-64): fetch then parse to the table. -/
def fetch_runs (b : Backend) (experiment_id : Option String) : List ComparisonRow :=
  parse_runs_to_df (fetch_runs_list b experiment_id)

/-- Embeds get_model with the registry made an explicit input-output state, to
state frame conditions: the source reads MODELS[name] and builds the effective
params as a fresh dict ({**default_params, **kwargs}), assigning nothing to the
registry, so the registry state passes through unchanged. -/
def get_model_state (registry : List (String × ModelClass × Params)) (name : String)
    (kwargs : Params) : Except String Classifier × List (String × ModelClass × Params) :=
  match registry.lookup name with
  | none =>
      (.error ("Unknown model: " ++ name ++ ". Available: " ++
        pyListRepr (registry.map (fun p => p.1))), registry)
  | some cd => (.ok { cls := cd.1, params := dictMerge cd.2 kwargs }, registry)

/-- ComparisonRow built as the SPEC words state the field-resolution policy
(spec §4.4), written independently of the source loop so the aggregator's
implementation can be compared against it: runName is the run's name if
non-empty else the first 8 characters of its id; modelType is params
model_type else "Unknown"; accuracy is metrics training_score, else accuracy,
else 0; f1Score is metrics training_f1_score else 0; trainingTimeSeconds is
metrics training_time else 0. -/
def specComparisonRow (run : Run) : ComparisonRow :=
  { run_name := if run.info.run_name ≠ "" then run.info.run_name
                else run.info.run_id.take 8,
    model_type := match run.data.params.lookup "model_type" with
                  | some m => m
                  | none => "Unknown",
    accuracy := match run.data.metrics.lookup "training_score" with
                | some v => v
                | none => match run.data.metrics.lookup "accuracy" with
                          | some v => v
                          | none => 0,
    f1_score := match run.data.metrics.lookup "training_f1_score" with
                | some v => v
                | none => 0,
    training_time := match run.data.metrics.lookup "training_time" with
                     | some v => v
                     | none => 0,
    run_id := run.info.run_id,
    start_time := run.info.start_time }

/-- A session-event trace is strictly sequential when it is a sequence of
immediately closed sessions: every open is followed by its close before any
other session event, so sessions never nest and never dangle. -/
def seqTrace : List SEvent → Bool
  | [] => true
  | .openSession _ :: .closeSession :: rest => seqTrace rest
  | _ => false

/-- A world where no fit call raises and every fit takes one second. -/
def w0 : World := { fitRaises := fun _ => false, fitTime := fun _ => 1 }

/-- The tracking backend before any pipeline invocation. -/
def st0 : MlflowState :=
  { experiment := none, autolog := false, active := none, completed := [] }

/-- A pipeline config naming a registered dataset and an unregistered model. -/
def badModelPipe : TrainingPipeline :=
  { loader_name := "iris", model_names := ["alexnet"] }

/-- A pipeline config naming an unregistered dataset. -/
def mnistPipe : TrainingPipeline :=
  { loader_name := "mnist", model_names := ["random_forest"] }

/-- A pipeline config with a registered dataset and an empty model list. -/
def emptyModelsPipe : TrainingPipeline :=
  { loader_name := "iris", model_names := [] }

/-- A pipeline config training one registered model, then one unregistered. -/
def twoModelPipe : TrainingPipeline :=
  { loader_name := "iris", model_names := ["logistic_regression", "alexnet"] }

/-- A recorded run carrying none of the four tracked metrics and no name. -/
def bareRun : Run :=
  { info := { run_id := "abcdef1234567890", run_name := "", start_time := 1700000000000 },
    data := { metrics := [], params := [] } }

/-- A recorded run carrying all tracked metrics and params. -/
def fullRun : Run :=
  { info := { run_id := "1111222233334444", run_name := "random_forest", start_time := 5 },
    data := { metrics := [("training_score", 1), ("training_f1_score", 1),
                          ("training_time", 2)],
              params := [("model_type", "RandomForestClassifier")] } }

/-- A two-experiment tracking store used to exercise the fetch logic. -/
def backend2 : Backend :=
  { experiments := [{ experiment_id := "0", runs := [bareRun, fullRun] },
                    { experiment_id := "7", runs := [fullRun] }] }

theorem lookup_mapped {β : Type} (a b : List (String × β)) (k : String) :
    ((a.map (fun p => (p.1, ((b.lookup p.1).getD p.2)))).lookup k) =
      (a.lookup k).map (fun v => (b.lookup k).getD v) := by
  induction a with
  | nil => simp
  | cons p t ih =>
    obtain ⟨k1, v1⟩ := p
    by_cases hp : k = k1
    · subst hp
      simp [List.lookup_cons]
    · simp [List.lookup_cons, beq_false_of_ne hp, ih]

theorem lookup_filter {β : Type} (a b : List (String × β)) (k : String)
    (h : a.lookup k = none) :
    ((b.filter (fun p => (a.lookup p.1).isNone)).lookup k) = b.lookup k := by
  induction b with
  | nil => simp
  | cons p t ih =>
    obtain ⟨k1, v1⟩ := p
    by_cases hp : k = k1
    · subst hp
      simp [List.filter_cons, List.lookup_cons, h]
    · cases ha : a.lookup k1 <;>
        simp [List.filter_cons, List.lookup_cons, beq_false_of_ne hp, ha, ih]

theorem dictMerge_lookup (a b : Params) (k : String) :
    (dictMerge a b).lookup k =
      if (b.lookup k).isSome then b.lookup k else a.lookup k := by
  unfold dictMerge
  rw [List.lookup_append, lookup_mapped]
  cases ha : a.lookup k with
  | none => cases hb : b.lookup k <;> simp [Option.or, lookup_filter a b k ha, hb]
  | some v => cases hb : b.lookup k <;> simp [Option.or, hb]

theorem lookup_none_of_not_mem_keys {β : Type} (l : List (String × β)) (k : String)
    (h : k ∉ l.map (fun p => p.1)) : l.lookup k = none := by
  rw [List.lookup_eq_none_iff]
  intro p hp
  have hmem : p.1 ∈ l.map (fun q => q.1) := List.mem_map_of_mem (fun q => q.1) hp
  have hne : k ≠ p.1 := fun e => h (e ▸ hmem)
  simpa [bne_iff_ne] using hne

/-- C6: for every registered model and every override mapping, the effective
constructor parameters are the registered defaults with the overrides applied
key-by-key as a shallow merge in which caller-supplied keys win. -/
theorem C6_shallow_merge (name : String) (cls : ModelClass) (dflts kwargs : Params)
    (h : MODELS.lookup name = some (cls, dflts)) :
    get_model name kwargs = .ok { cls := cls, params := dictMerge dflts kwargs } ∧
    ∀ k, (dictMerge dflts kwargs).lookup k =
      if (kwargs.lookup k).isSome then kwargs.lookup k else dflts.lookup k := by
  constructor
  · simp [get_model, h]
  · intro k
    exact dictMerge_lookup dflts kwargs k

theorem C6_shallow_merge_witness :
    get_model "random_forest" [("n_estimators", PValue.int 50)] =
      .ok { cls := ModelClass.randomForestClassifier,
            params := [("n_estimators", PValue.int 50), ("random_state", PValue.int 42)] } ∧
    ((dictMerge [("n_estimators", PValue.int 100), ("random_state", PValue.int 42)]
        [("n_estimators", PValue.int 50)]).lookup "n_estimators" = some (PValue.int 50) ∧
     (dictMerge [("n_estimators", PValue.int 100), ("random_state", PValue.int 42)]
        [("n_estimators", PValue.int 50)]).lookup "random_state" = some (PValue.int 42)) :=
  have h := C6_shallow_merge "random_forest" ModelClass.randomForestClassifier
    [("n_estimators", PValue.int 100), ("random_state", PValue.int 42)]
    [("n_estimators", PValue.int 50)] (by decide)
  ⟨h.1.trans rfl, (h.2 "n_estimators").trans (by decide), (h.2 "random_state").trans (by decide)⟩

/-- C10: model resolution never mutates the registry: with the registry made an
explicit state, get_model returns it unchanged, a subsequent override-free call
still constructs from the original registered defaults, and the stateful variant
agrees with get_model on the fixed MODELS registry. -/
theorem C10_registry_frame (registry : List (String × ModelClass × Params))
    (name : String) (kwargs : Params) :
    (get_model_state registry name kwargs).2 = registry ∧
    get_model_state ((get_model_state registry name kwargs).2) name [] =
      get_model_state registry name [] ∧
    get_model name kwargs = (get_model_state MODELS name kwargs).1 := by
  have hpass : (get_model_state registry name kwargs).2 = registry := by
    cases h : registry.lookup name <;> simp [get_model_state, h]
  refine ⟨hpass, by rw [hpass], ?_⟩
  cases h : MODELS.lookup name <;>
    simp [get_model, get_model_state, h, unknownModelMsg, list_models]

/-- C5: every registered name resolves to a classifier instance, and every
unregistered name fails with a ValueError whose message carries the Python list
of the currently registered names, each name quoted inside it. -/
theorem C5_model_resolution :
    (∀ name, name ∈ list_models → ∃ c : Classifier, get_model name [] = .ok c) ∧
    (∀ name kwargs, name ∉ list_models →
      get_model name kwargs = .error (unknownModelMsg name) ∧
      (∃ a, unknownModelMsg name = a ++ pyListRepr list_models) ∧
      (∀ m ∈ list_models, ∃ x z, pyListRepr list_models = x ++ (pyStrRepr m ++ z))) := by
  constructor
  · intro name h
    fin_cases h
    · exact ⟨_, rfl⟩
    · exact ⟨_, rfl⟩
    · exact ⟨_, rfl⟩
  · intro name kwargs h
    have hnone : MODELS.lookup name = none :=
      lookup_none_of_not_mem_keys MODELS name h
    refine ⟨by simp [get_model, hnone], ⟨"Unknown model: " ++ name ++ ". Available: ", rfl⟩, ?_⟩
    intro m hm
    fin_cases hm
    · exact ⟨"[", ", " ++ pyStrRepr "random_forest" ++ ", " ++ pyStrRepr "svm_rbf" ++ "]", by decide⟩
    · exact ⟨"[" ++ pyStrRepr "logistic_regression" ++ ", ",
             ", " ++ pyStrRepr "svm_rbf" ++ "]", by decide⟩
    · exact ⟨"[" ++ pyStrRepr "logistic_regression" ++ ", " ++ pyStrRepr "random_forest" ++ ", ",
             "]", by decide⟩

theorem C5_model_resolution_witness :
    (∃ c : Classifier, get_model "svm_rbf" [] = .ok c) ∧
    (get_model "alexnet" [] = .error (unknownModelMsg "alexnet") ∧
      (∃ a, unknownModelMsg "alexnet" = a ++ pyListRepr list_models) ∧
      (∀ m ∈ list_models, ∃ x z, pyListRepr list_models = x ++ (pyStrRepr m ++ z))) :=
  ⟨C5_model_resolution.1 "svm_rbf" (by decide),
   C5_model_resolution.2 "alexnet" [] (by decide)⟩

theorem rowOfRun_eq_spec (r : Run) : rowOfRun r = specComparisonRow r := by
  unfold rowOfRun specComparisonRow
  by_cases h : r.info.run_name = "" <;>
    cases h1 : r.data.metrics.lookup "training_score" <;>
    cases h2 : r.data.metrics.lookup "accuracy" <;>
    cases h3 : r.data.metrics.lookup "training_f1_score" <;>
    cases h4 : r.data.metrics.lookup "training_time" <;>
    cases h5 : r.data.params.lookup "model_type" <;>
    simp [h, h1, h2, h3, h4, h5, String.isEmpty_iff]

/-- C1: the aggregator's table-building step produces exactly one ComparisonRow
per run (no row dropped), and every row follows the field-resolution policy the
spec states: accuracy from training_score, else accuracy, else 0; f1Score from
training_f1_score else 0; trainingTimeSeconds from training_time else 0;
modelType from params model_type else "Unknown"; runName the run's name if
non-empty, else the first 8 characters of its id. -/
theorem C1_one_row_per_run (runs : List Run) :
    (parse_runs_to_df runs).length = runs.length ∧
    parse_runs_to_df runs = runs.map specComparisonRow := by
  refine ⟨by simp [parse_runs_to_df], ?_⟩
  unfold parse_runs_to_df
  exact List.map_congr_left (fun r _ => rowOfRun_eq_spec r)

theorem seededShuffle_length {α : Type} (seed : Int) (xs : List α) :
    (seededShuffle seed xs).length = xs.length := by
  unfold seededShuffle
  have h0 : (0:Int) ≤ seed % ((xs.length : Int) + 1) :=
    Int.emod_nonneg seed (by positivity)
  have h1 : seed % ((xs.length : Int) + 1) < (xs.length : Int) + 1 :=
    Int.emod_lt_of_pos seed (by positivity)
  have hk : (seed % ((xs.length : Int) + 1)).toNat ≤ xs.length := by omega
  simp only [List.length_append, List.length_drop, List.length_take]
  omega

theorem train_test_split_ok (X y : List Nat) (ts : Rat) (seed : Int)
    (h0 : 0 < ts) (h1 : ts < 1) :
    train_test_split X y ts seed =
      .ok (((seededShuffle seed (X.zip y)).drop (ts * (X.length : Rat)).ceil.toNat).map Prod.fst,
           ((seededShuffle seed (X.zip y)).take (ts * (X.length : Rat)).ceil.toNat).map Prod.fst,
           ((seededShuffle seed (X.zip y)).drop (ts * (X.length : Rat)).ceil.toNat).map Prod.snd,
           ((seededShuffle seed (X.zip y)).take (ts * (X.length : Rat)).ceil.toNat).map Prod.snd) := by
  have hcond : ¬(ts ≤ 0 ∨ 1 ≤ ts) := by
    rintro (h | h)
    · exact absurd h (not_le.mpr h0)
    · exact absurd h (not_le.mpr h1)
  unfold train_test_split
  rw [if_neg hcond]

/-- C4: the train/test split is deterministic — equal seeds and equal inputs give
identical partitions — and on a 150-row dataset with testFraction 1/5 and seed 42
it yields 120 training rows and 30 test rows. -/
theorem C4_split_deterministic (X1 y1 X2 y2 : List Nat) (ts : Rat) (seed : Int)
    (hX : X1 = X2) (hy : y1 = y2) :
    train_test_split X1 y1 ts seed = train_test_split X2 y2 ts seed ∧
    (X1.length = 150 → y1.length = 150 → ts = 1/5 → seed = 42 →
      ∃ Xtr Xte ytr yte,
        train_test_split X1 y1 ts seed = .ok (Xtr, Xte, ytr, yte) ∧
        Xtr.length = 120 ∧ Xte.length = 30 ∧ ytr.length = 120 ∧ yte.length = 30) := by
  constructor
  · rw [hX, hy]
  · intro h150x h150y hts hseed
    subst hts
    subst hseed
    rw [train_test_split_ok X1 y1 (1/5) 42 (by norm_num) (by norm_num)]
    have hz : (X1.zip y1).length = 150 := by
      simp [List.length_zip, h150x, h150y]
    have hs : (seededShuffle 42 (X1.zip y1)).length = 150 := by
      rw [seededShuffle_length, hz]
    have hc : (((1:Rat)/5) * ((X1.length : Nat) : Rat)).ceil = 30 := by
      rw [h150x]
      norm_num [Rat.ceil]
    have hnt : (((1:Rat)/5) * ((X1.length : Nat) : Rat)).ceil.toNat = 30 := by
      rw [hc]
      rfl
    refine ⟨_, _, _, _, rfl, ?_, ?_, ?_, ?_⟩ <;>
      simp only [List.length_map, List.length_drop, List.length_take, hs, hnt] <;>
      omega

theorem C4_split_deterministic_witness :
    ∃ Xtr Xte ytr yte,
      train_test_split (List.range 150) ((List.range 150).map (fun i => i / 50))
          (1/5) 42 = .ok (Xtr, Xte, ytr, yte) ∧
      Xtr.length = 120 ∧ Xte.length = 30 ∧ ytr.length = 120 ∧ yte.length = 30 :=
  (C4_split_deterministic (List.range 150) ((List.range 150).map (fun i => i / 50))
      (List.range 150) ((List.range 150).map (fun i => i / 50)) (1/5) 42 rfl rfl).2
    (by simp) (by simp) rfl rfl

theorem train_single_model_closes (w : World) (n : String) (st : MlflowState)
    (h : st.active = none) :
    (train_single_model w n st).state.active = none ∧
    (train_single_model w n st).events = [.openSession n, .closeSession] ∧
    (train_single_model w n st).state.completed = st.completed ++
      (match (train_single_model w n st).result with
       | .ok _ => [{ run_name := n, finished := true,
                     metrics := [("training_time", w.fitTime n)] }]
       | .error _ => [{ run_name := n, finished := false, metrics := [] }]) := by
  cases hg : get_model n [] with
  | error msg =>
    simp [train_single_model, h, hg, endRun]
  | ok c =>
    by_cases hf : w.fitRaises n
    · simp [train_single_model, h, hg, hf, endRun]
    · simp [train_single_model, h, hg, hf, endRun, logMetric]

theorem trainAll_sessions (w : World) (names : List String) (st : MlflowState)
    (h : st.active = none) :
    (trainAll w names st).state.active = none ∧
    seqTrace (trainAll w names st).events = true := by
  induction names generalizing st with
  | nil => simp [trainAll, h, seqTrace]
  | cons n rest ih =>
    have h1 := train_single_model_closes w n st h
    cases hr : (train_single_model w n st).result with
    | error e =>
      refine ⟨?_, ?_⟩ <;> simp [trainAll, hr, h1.1, h1.2.1, seqTrace]
    | ok r =>
      have h2 := ih (train_single_model w n st).state h1.1
      refine ⟨?_, ?_⟩ <;> simp [trainAll, hr, h1.2.1, h2.1, h2.2, seqTrace]

/-- C3: every tracking session the executor opens is closed on every exit path —
whether fitting succeeds, model resolution fails, or fitting raises — so no
pipeline invocation leaves a dangling open session, and the session-event trace
is strictly sequential: each session is closed before the next one opens, never
nested. -/
theorem C3_sessions_closed (w : World) (p : TrainingPipeline) (e : String)
    (st : MlflowState) (h : st.active = none) :
    (run_pipeline w p e st).state.active = none ∧
    seqTrace (run_pipeline w p e st).events = true := by
  unfold run_pipeline
  cases hL : loaders.lookup p.loader_name with
  | none => simp [get_loader, hL, h, seqTrace]
  | some L =>
    cases hs : train_test_split L.load.1 L.load.2.1 p.test_size p.random_state with
    | error err => simp [get_loader, hL, hs, h, seqTrace]
    | ok parts =>
      have := trainAll_sessions w p.model_names
        { st with experiment := some e, autolog := true } h
      simpa [get_loader, hL, hs] using this

theorem C3_sessions_closed_witness :
    (run_pipeline w0 twoModelPipe "exp" st0).state.active = none ∧
    seqTrace (run_pipeline w0 twoModelPipe "exp" st0).events = true :=
  C3_sessions_closed w0 twoModelPipe "exp" st0 rfl

/-- C7: a pipeline whose dataset name is not registered fails with the ValueError
of get_loader propagated to the caller and aborts before any model is trained: no
tracking session is opened, no run is recorded, and no TrainingResult is
produced. -/
theorem C7_unknown_dataset (w : World) (p : TrainingPipeline) (e : String)
    (st : MlflowState) (h : p.loader_name ∉ loaders.map (fun q => q.1)) :
    (run_pipeline w p e st).result =
      .error (.valueError (unknownLoaderMsg p.loader_name)) ∧
    (run_pipeline w p e st).events = [] ∧
    (run_pipeline w p e st).state.active = st.active ∧
    (run_pipeline w p e st).state.completed = st.completed := by
  have hnone : loaders.lookup p.loader_name = none :=
    lookup_none_of_not_mem_keys loaders p.loader_name h
  refine ⟨?_, ?_, ?_, ?_⟩ <;> simp [run_pipeline, get_loader, hnone]

theorem C7_unknown_dataset_witness :
    (run_pipeline w0 mnistPipe "exp" st0).result =
      .error (.valueError (unknownLoaderMsg mnistPipe.loader_name)) ∧
    (run_pipeline w0 mnistPipe "exp" st0).events = [] ∧
    (run_pipeline w0 mnistPipe "exp" st0).state.active = st0.active ∧
    (run_pipeline w0 mnistPipe "exp" st0).state.completed = st0.completed :=
  C7_unknown_dataset w0 mnistPipe "exp" st0 (by decide)

/-- C8: a pipeline run with an empty model list returns an empty result sequence
rather than an error, and opens zero tracking sessions: no session events, and
the backend's active and recorded runs are unchanged. -/
theorem C8_empty_models (w : World) (p : TrainingPipeline) (e : String)
    (st : MlflowState) (hm : p.model_names = [])
    (hload : (loaders.lookup p.loader_name).isSome)
    (h0 : 0 < p.test_size) (h1 : p.test_size < 1) :
    (run_pipeline w p e st).result = .ok [] ∧
    (run_pipeline w p e st).events = [] ∧
    (run_pipeline w p e st).state.active = st.active ∧
    (run_pipeline w p e st).state.completed = st.completed := by
  obtain ⟨L, hL⟩ := Option.isSome_iff_exists.mp hload
  have hok := train_test_split_ok L.load.1 L.load.2.1 p.test_size p.random_state h0 h1
  refine ⟨?_, ?_, ?_, ?_⟩ <;> simp [run_pipeline, get_loader, hL, hok, hm, trainAll]

theorem C8_empty_models_witness :
    (run_pipeline w0 emptyModelsPipe "exp" st0).result = .ok [] ∧
    (run_pipeline w0 emptyModelsPipe "exp" st0).events = [] ∧
    (run_pipeline w0 emptyModelsPipe "exp" st0).state.active = st0.active ∧
    (run_pipeline w0 emptyModelsPipe "exp" st0).state.completed = st0.completed :=
  C8_empty_models w0 emptyModelsPipe "exp" st0 rfl rfl
    (by norm_num [emptyModelsPipe]) (by norm_num [emptyModelsPipe])

/-- C2 (counterexample): with the registered iris dataset and the unregistered
model name "alexnet", the pipeline invocation fails, yet a tracking session was
opened for the failing model and the backend is left holding its recorded run
with no training_time metric — a partially recorded run exists, contradicting
the claim that a session's run is either fully recorded or never opened. -/
theorem C2_no_partial_state_counterexample :
    (run_pipeline w0 badModelPipe "exp" st0).result =
      .error (.valueError (unknownModelMsg "alexnet")) ∧
    (run_pipeline w0 badModelPipe "exp" st0).events =
      [.openSession "alexnet", .closeSession] ∧
    (run_pipeline w0 badModelPipe "exp" st0).state.completed =
      [{ run_name := "alexnet", finished := false, metrics := [] }] ∧
    (∀ r ∈ (run_pipeline w0 badModelPipe "exp" st0).state.completed,
      r.metrics.lookup "training_time" = none) := by
  have hok := train_test_split_ok irisData.1 irisData.2.1 (5⁻¹) 42
    (by norm_num) (by norm_num)
  refine ⟨?_, ?_, ?_, ?_⟩ <;>
    simp [run_pipeline, badModelPipe, get_loader, loaders, DataLoader.load, hok,
          trainAll, train_single_model, st0, get_model, MODELS, endRun, List.lookup]

/-- C2 (amended): a dataset-resolution failure opens no session and records no
run; a model-resolution or fit failure closes its session on exit (no dangling
open run) but records the run without the training_time metric, so a partially
recorded run can remain — only a successful fit records training_time. -/
theorem C2_failure_state (w : World) (p : TrainingPipeline) (e n : String)
    (st : MlflowState) :
    (p.loader_name ∉ loaders.map (fun q => q.1) →
      (run_pipeline w p e st).events = [] ∧
      (run_pipeline w p e st).state.completed = st.completed) ∧
    (st.active = none →
      (train_single_model w n st).state.active = none ∧
      (∀ res, (train_single_model w n st).result = .ok res →
        (train_single_model w n st).state.completed =
          st.completed ++ [{ run_name := n, finished := true,
                             metrics := [("training_time", w.fitTime n)] }]) ∧
      (∀ err, (train_single_model w n st).result = .error err →
        (train_single_model w n st).state.completed =
          st.completed ++ [{ run_name := n, finished := false, metrics := [] }])) := by
  constructor
  · intro h
    have hnone : loaders.lookup p.loader_name = none :=
      lookup_none_of_not_mem_keys loaders p.loader_name h
    refine ⟨?_, ?_⟩ <;> simp [run_pipeline, get_loader, hnone]
  · intro h
    have h1 := train_single_model_closes w n st h
    refine ⟨h1.1, ?_, ?_⟩
    · intro res hres
      have h3 := h1.2.2
      rw [hres] at h3
      simpa using h3
    · intro err herr
      have h3 := h1.2.2
      rw [herr] at h3
      simpa using h3

theorem C2_failure_state_witness :
    ((run_pipeline w0 mnistPipe "exp" st0).events = [] ∧
     (run_pipeline w0 mnistPipe "exp" st0).state.completed = st0.completed) ∧
    (train_single_model w0 "alexnet" st0).state.completed =
      st0.completed ++ [{ run_name := "alexnet", finished := false, metrics := [] }] :=
  ⟨(C2_failure_state w0 mnistPipe "exp" "alexnet" st0).1 (by decide),
   ((C2_failure_state w0 mnistPipe "exp" "alexnet" st0).2 rfl).2.2
     (.valueError (unknownModelMsg "alexnet")) rfl⟩

theorem filter_by_id : ∀ (l : List Experiment),
    (l.map Experiment.experiment_id).Nodup → ∀ ex ∈ l,
    l.filter (fun x => ([ex.experiment_id] : List String).contains x.experiment_id)
      = [ex] := by
  intro l
  induction l with
  | nil =>
    intro _ ex hm
    cases hm
  | cons a t ih =>
    intro h ex hm
    rw [List.map_cons, List.nodup_cons] at h
    rcases List.mem_cons.mp hm with he | ht
    · subst he
      have hrest : t.filter
          (fun x => ([ex.experiment_id] : List String).contains x.experiment_id) = [] := by
        rw [List.filter_eq_nil_iff]
        intro x hx
        have hne : x.experiment_id ≠ ex.experiment_id := by
          intro e
          exact h.1 (e ▸ List.mem_map_of_mem Experiment.experiment_id hx)
        simp [hne]
      rw [List.filter_cons_of_pos (by simp), hrest]
    · have hne : a.experiment_id ≠ ex.experiment_id := by
        intro e
        have : ex.experiment_id ∈ t.map Experiment.experiment_id :=
          List.mem_map_of_mem Experiment.experiment_id ht
        exact h.1 (e ▸ this)
      rw [List.filter_cons_of_neg (by simp [hne]), ih h.2 ex ht]

/-- C9: with experimentId omitted, fetchRuns returns the concatenation of every
experiment's runs in experiment enumeration order, each block in the backend's
own run order with no independent sorting; with an experimentId it returns
exactly that experiment's runs. -/
theorem C9_fetch_runs (b : Backend)
    (h : (b.experiments.map Experiment.experiment_id).Nodup) :
    fetch_runs_list b none = (b.experiments.map Experiment.runs).flatten ∧
    ∀ ex ∈ b.experiments, fetch_runs_list b (some ex.experiment_id) = ex.runs := by
  have hs : ∀ ex ∈ b.experiments, search_runs b [ex.experiment_id] = ex.runs := by
    intro ex hm
    unfold search_runs
    rw [filter_by_id b.experiments h ex hm]
    simp
  constructor
  · unfold fetch_runs_list
    rw [List.map_congr_left hs]
  · intro ex hm
    exact hs ex hm

theorem C9_fetch_runs_witness :
    fetch_runs_list backend2 none = (backend2.experiments.map Experiment.runs).flatten ∧
    fetch_runs_list backend2 (some "7") = [fullRun] :=
  ⟨(C9_fetch_runs backend2 (by decide)).1,
   (C9_fetch_runs backend2 (by decide)).2
     { experiment_id := "7", runs := [fullRun] } (by decide)⟩

end Mltrack
